import Mathlib

/-!
Verification of the lumatone-rs MIDI core: the sysex frame codec
(`src/midi/sysex.rs`), the command encoders (`src/midi/commands.rs`) and
the protocol driver state machine (`src/midi/driver.rs`), shallowly
embedded in Lean.  Bytes are modelled as `Nat` (with explicit masks where
the Rust code masks), byte vectors as `List Nat`, fallible Rust functions
as `Except`, and Rust panics as `Option` results (`none` = panic).
-/

namespace Lumatone

/-- Modelled from the spec: the 3-byte fixed manufacturer identifier from
`constants.rs`, which is not among the sources.  The spec fixes only that it
is a 3-byte constant; the concrete bytes are the Lumatone vendor id. -/
def MANUFACTURER_ID : List Nat := [0x00, 0x21, 0x50]

/-- Modelled from the spec: the fixed "echo flag" marker byte (`TEST_ECHO`
in `constants.rs`, not among the sources). -/
def TEST_ECHO : Nat := 0x7f

/-- Modelled from the spec: `BoardIndex` from `constants.rs` (not among the
sources): one tag per physical board segment (numeric 1..=5) plus the
"server" control pseudo-board (reserved value 0). -/
inductive BoardIndex
  | Server
  | Octave1
  | Octave2
  | Octave3
  | Octave4
  | Octave5
deriving DecidableEq

/-- Modelled from the spec: numeric mapping of `BoardIndex` (its
`Into<u8>` impl in `constants.rs`): 1..=5 for physical boards, 0 for the
control board. -/
def BoardIndex.toByte : BoardIndex → Nat
  | .Server => 0
  | .Octave1 => 1
  | .Octave2 => 2
  | .Octave3 => 3
  | .Octave4 => 4
  | .Octave5 => 5

/-- Modelled from the spec: `CommandId` from `constants.rs` (not among the
sources), restricted to the representative commands the spec covers:
change-key-note = 0x00, set-key-colour = 0x01, save-program = 0x02, and the
ping command (byte value per the device protocol table). -/
inductive CommandId
  | ChangeKeyNote
  | SetKeyColour
  | SaveProgram
  | LumaPing
deriving DecidableEq

/-- Modelled from the spec: the fixed byte code of each `CommandId`
(its `Into<u8>` impl in `constants.rs`). -/
def CommandId.toByte : CommandId → Nat
  | .ChangeKeyNote => 0x00
  | .SetKeyColour => 0x01
  | .SaveProgram => 0x02
  | .LumaPing => 0x33

/-- Modelled from the spec: the derived `FromPrimitive` instance of
`CommandId` (`constants.rs`), mapping a byte back to the command whose code
it is. -/
def CommandId.fromByte (b : Nat) : Option CommandId :=
  if b = 0x00 then some .ChangeKeyNote
  else if b = 0x01 then some .SetKeyColour
  else if b = 0x02 then some .SaveProgram
  else if b = 0x33 then some .LumaPing
  else none

/-- Modelled from the spec: the error enum `LumatoneMidiError` from
`error.rs` (not among the sources), with the variants used by the embedded
code.  `FramingError` stands for the boxed codec errors (`Box<dyn Error>`)
that `decode_ping` propagates with `?`. -/
inductive LumatoneMidiError
  | NotLumatoneMessage (msg : List Nat)
  | UnexpectedCommandId (expected actual : CommandId)
  | MessagePayloadTooShort (expected actual : Nat)
  | InvalidResponseMessage (s : String)
  | InvalidCommandInput (cmd : CommandId) (s : String)
  | InvalidStateTransition (s : String)
  | FramingError (s : String)
deriving DecidableEq

/-! ## Frame codec (`src/midi/sysex.rs`) -/

def BOARD_IND : Nat := 0x3
def CMD_ID : Nat := 0x4
def MSG_STATUS : Nat := 0x5
def PAYLOAD_INIT : Nat := 0x6

def SYSEX_START : Nat := 0xf0
def SYSEX_END : Nat := 0xf7

abbrev EncodedSysex := List Nat

/-- `create_sysex`: `[START, manufacturer(3), board, cmd, data.., END]`. -/
def create_sysex (board_index : BoardIndex) (cmd : CommandId) (data : List Nat) :
    EncodedSysex :=
  [SYSEX_START] ++ MANUFACTURER_ID ++ [board_index.toByte] ++ [cmd.toByte] ++ data
    ++ [SYSEX_END]

/-- `strip_sysex_markers`.  The Rust body indexes with `usize` arithmetic:
for the single-byte input `[SYSEX_END]` the statement `end -= 1` underflows
`end == 0` and panics; that panic is modelled by `none`.  The slice
`msg[start..=end]` is `(msg.drop start).take (end + 1 - start)`. -/
def strip_sysex_markers (msg : List Nat) : Option (List Nat) :=
  if msg.length = 0 then some msg
  else
    let start := if msg.getD 0 0 = SYSEX_START then 1 else 0
    let e := msg.length - 1
    if msg.getD e 0 = SYSEX_END then
      if e = 0 then none
      else some ((msg.drop start).take (e - 1 + 1 - start))
    else some ((msg.drop start).take (e + 1 - start))

/-- `is_lumatone_message`: after stripping markers, length at least 3 and
the first bytes agree with `MANUFACTURER_ID` (pairwise over the zip, as in
the Rust loop). -/
def is_lumatone_message (msg : List Nat) : Option Bool :=
  (strip_sysex_markers msg).map fun m =>
    if m.length < 3 then false
    else (MANUFACTURER_ID.zip m).all fun p => p.1 = p.2

/-- `message_payload`: after stripping markers, requires length at least
`PAYLOAD_INIT` and returns the bytes from offset `PAYLOAD_INIT` on. -/
def message_payload (msg : List Nat) : Option (Except String (List Nat)) :=
  (strip_sysex_markers msg).map fun m =>
    if m.length < PAYLOAD_INIT then
      .error "message too short, unable to extract payload"
    else .ok (m.drop PAYLOAD_INIT)

/-- `message_command_id`: after stripping markers, requires length greater
than `CMD_ID` and decodes the byte at offset `CMD_ID`. -/
def message_command_id (msg : List Nat) : Option (Except String CommandId) :=
  (strip_sysex_markers msg).map fun m =>
    if m.length ≤ CMD_ID then
      .error "message too short - unable to determine command id"
    else
      match CommandId.fromByte (m.getD CMD_ID 0) with
      | some c => .ok c
      | none => .error "unknown command id"

/-- `encode_rgb`: high and low nibble of each channel
(`x >> 4` and `x & 0xf`). -/
def encode_rgb (red green blue : Nat) : List Nat :=
  [red >>> 4, red % 16, green >>> 4, green % 16, blue >>> 4, blue % 16]

/-- `create_extended_key_color_sysex`: key index byte followed by the six
encoded color bytes. -/
def create_extended_key_color_sysex (board_index : BoardIndex) (cmd : CommandId)
    (key_index red green blue : Nat) : EncodedSysex :=
  create_sysex board_index cmd ([key_index] ++ encode_rgb red green blue)

/-! ## Command encoders (`src/midi/commands.rs`) -/

/-- `set_key_light_parameters` (CMD 0x01). -/
def set_key_light_parameters (board_index : BoardIndex)
    (key_index red green blue : Nat) : EncodedSysex :=
  create_extended_key_color_sysex board_index .SetKeyColour key_index red green blue

/-- `save_program` (CMD 0x02): rejects preset numbers above 9. -/
def save_program (preset_number : Nat) : Except LumatoneMidiError EncodedSysex :=
  if preset_number > 9 then
    .error (.InvalidCommandInput .SaveProgram "invalid input: max preset number is 9")
  else
    .ok (create_sysex .Server .SaveProgram [preset_number])

/-- `ping`: value masked to 28 bits (`value & 0xfffffff`), payload
`[TEST_ECHO, (val >> 14) & 0x7f, (val >> 7) & 0x7f, val & 0x7f]`. -/
def ping (value : Nat) : EncodedSysex :=
  let val := value % 2 ^ 28
  create_sysex .Server .LumaPing
    [TEST_ECHO, (val >>> 14) % 128, (val >>> 7) % 128, val % 128]

/-- `decode_ping`: validates vendor id, command id, payload length and echo
flag, then reassembles the value from the three 7-bit chunks. -/
def decode_ping (msg : List Nat) : Option (Except LumatoneMidiError Nat) :=
  match is_lumatone_message msg with
  | none => none
  | some false => some (.error (.NotLumatoneMessage msg))
  | some true =>
    match message_command_id msg with
    | none => none
    | some (.error e) => some (.error (.FramingError e))
    | some (.ok cmd_id) =>
      if cmd_id ≠ CommandId.LumaPing then
        some (.error (.UnexpectedCommandId .LumaPing cmd_id))
      else
        match message_payload msg with
        | none => none
        | some (.error e) => some (.error (.FramingError e))
        | some (.ok payload) =>
          if payload.length < 4 then
            some (.error (.MessagePayloadTooShort 4 payload.length))
          else if payload.getD 0 0 ≠ TEST_ECHO then
            some (.error (.InvalidResponseMessage
              "ping response has invalid echo flag value"))
          else
            some (.ok ((payload.getD 1 0 <<< 14) ||| (payload.getD 2 0 <<< 7)
              ||| payload.getD 3 0))

/-! ## Protocol driver state machine (`src/midi/driver.rs`) -/

/-- Driver states. -/
inductive State
  | Idle
  | ProcessingQueue (send_queue : List EncodedSysex)
  | AwaitingResponse (send_queue : List EncodedSysex) (command_sent : EncodedSysex)
  | DeviceBusy (send_queue : List EncodedSysex) (to_retry : EncodedSysex)
  | Failed (err : LumatoneMidiError)
deriving DecidableEq

/-- Actions fed into the state machine. -/
inductive Action
  | SubmitCommand (msg : EncodedSysex)
  | MessageSent (msg : EncodedSysex)
  | MessageReceived (msg : EncodedSysex)
  | ResponseTimedOut
  | ReadyToRetry
deriving DecidableEq

/-- Effects requested on entering a state. -/
inductive Effect
  | SendMidiMessage (msg : EncodedSysex)
  | StartReceiveTimeout
  | StartRetryTimeout
deriving DecidableEq

/-- `State::next`, matching on `(action, self)` with the arms in source
order.  The `MessageSent`/`ProcessingQueue` arm slices `send_queue[1..]`,
which panics when the queue is empty; that panic is modelled by `none`.
The final catch-all produces `Failed(InvalidStateTransition)` (the Rust
message is built with `format!`; here a fixed string stands for it). -/
def State.next (s : State) (action : Action) : Option State :=
  match action, s with
  | .SubmitCommand msg, .Idle =>
      some (.ProcessingQueue [msg])
  | .SubmitCommand msg, .AwaitingResponse send_queue command_sent =>
      some (.AwaitingResponse (send_queue ++ [msg]) command_sent)
  | .SubmitCommand msg, .DeviceBusy send_queue to_retry =>
      some (.DeviceBusy (send_queue ++ [msg]) to_retry)
  | .MessageSent msg, .ProcessingQueue send_queue =>
      if send_queue.length < 1 then none
      else some (.AwaitingResponse (send_queue.drop 1) msg)
  | .MessageReceived _, .AwaitingResponse send_queue _ =>
      some (if send_queue.isEmpty then .Idle else .ProcessingQueue send_queue)
  | .MessageReceived _, state => some state
  | .ResponseTimedOut, .AwaitingResponse send_queue _ =>
      some (if send_queue.isEmpty then .Idle else .ProcessingQueue send_queue)
  | .ResponseTimedOut, state => some state
  | .ReadyToRetry, .DeviceBusy send_queue to_retry =>
      some (.ProcessingQueue ([to_retry] ++ send_queue))
  | .ReadyToRetry, state => some state
  | _, _ =>
      some (.Failed (.InvalidStateTransition "invalid action for current state"))

/-- `State::enter`.  The `ProcessingQueue` arm indexes `send_queue[0]`,
which panics when the queue is empty; that panic is modelled by the outer
`none`. -/
def State.enter : State → Option (Option Effect)
  | .Idle => some none
  | .ProcessingQueue send_queue =>
      send_queue.head?.map fun msg => some (.SendMidiMessage msg)
  | .DeviceBusy _ _ => some (some .StartRetryTimeout)
  | .AwaitingResponse _ _ => some (some .StartReceiveTimeout)
  | .Failed _ => some none

/-- Run the state machine from a given state over a list of actions,
propagating a panic (`none`) once it occurs. -/
def State.runFrom (s : State) (acts : List Action) : Option State :=
  acts.foldl (fun os a => os.bind fun st => st.next a) (some s)

/-- Run the state machine from the driver loop's initial state `Idle`. -/
def runActions (acts : List Action) : Option State :=
  State.runFrom .Idle acts

/-- The queue of a `ProcessingQueue` state is non-empty (vacuously true in
the other states). -/
def State.processingQueueNonempty : State → Bool
  | .ProcessingQueue send_queue => !send_queue.isEmpty
  | _ => true

/-- Whether a state is `DeviceBusy`. -/
def State.isDeviceBusy : State → Bool
  | .DeviceBusy _ _ => true
  | _ => false

/-! ## Codec lemmas -/

/-- Stripping a frame that consists of a start marker, a core and an end
marker yields exactly the core. -/
theorem strip_wrapped (core : List Nat) :
    strip_sysex_markers (SYSEX_START :: (core ++ [SYSEX_END])) = some core := by
  have hlen : (SYSEX_START :: (core ++ [SYSEX_END])).length = core.length + 2 := by
    simp
  have hlast : (SYSEX_START :: (core ++ [SYSEX_END])).getD (core.length + 1) 0
      = SYSEX_END := by
    have h : (core ++ [SYSEX_END]).getD core.length 0 = SYSEX_END := by
      rw [List.getD_append_right _ _ _ _ (le_refl _)]
      simp
    simp [h]
  simp only [strip_sysex_markers, hlen]
  have h2 : core.length + 2 - 1 = core.length + 1 := by omega
  simp only [h2, hlast]
  have h3 : core.length + 1 - 1 + 1 - 1 = core.length := by omega
  simp [h3, List.take_left]

/-- Stripping a locally built frame returns the five header bytes followed
by the data bytes. -/
theorem strip_create_sysex (b : BoardIndex) (c : CommandId) (data : List Nat) :
    strip_sysex_markers (create_sysex b c data)
      = some (MANUFACTURER_ID ++ [b.toByte] ++ [c.toByte] ++ data) := by
  have h : create_sysex b c data
      = SYSEX_START :: ((MANUFACTURER_ID ++ [b.toByte] ++ [c.toByte] ++ data)
        ++ [SYSEX_END]) := by
    simp [create_sysex]
  rw [h, strip_wrapped]

/-- `CommandId.fromByte` inverts `CommandId.toByte`. -/
theorem fromByte_toByte (c : CommandId) : CommandId.fromByte c.toByte = some c := by
  cases c <;> rfl

/-- A locally built frame passes the vendor-identity check. -/
theorem is_lumatone_create (b : BoardIndex) (c : CommandId) (data : List Nat) :
    is_lumatone_message (create_sysex b c data) = some true := by
  simp only [is_lumatone_message, strip_create_sysex, Option.map_some', MANUFACTURER_ID]
  simp

/-- Extracting the command id of a locally built frame returns the command
it was built with. -/
theorem message_command_id_create (b : BoardIndex) (c : CommandId) (data : List Nat) :
    message_command_id (create_sysex b c data) = some (.ok c) := by
  simp only [message_command_id, strip_create_sysex, Option.map_some', MANUFACTURER_ID,
    CMD_ID, List.cons_append, List.nil_append, List.length_cons]
  rw [if_neg (by omega)]
  have hg : (0x00 :: 0x21 :: 0x50 :: b.toByte :: c.toByte :: data).getD 4 0
      = c.toByte := rfl
  rw [hg, fromByte_toByte]

/-- Extracting the payload of a locally built frame fails on an empty data
list and otherwise drops the first data byte: `create_sysex` writes five
header bytes after the start marker while `message_payload` skips
`PAYLOAD_INIT = 6` bytes of the stripped frame. -/
theorem message_payload_create (b : BoardIndex) (c : CommandId) (data : List Nat) :
    message_payload (create_sysex b c data)
      = some (if data = [] then
            .error "message too short, unable to extract payload"
          else .ok (data.drop 1)) := by
  cases data with
  | nil => simp [message_payload, strip_create_sysex, PAYLOAD_INIT, MANUFACTURER_ID]
  | cons x xs =>
    simp only [message_payload, strip_create_sysex, Option.map_some', MANUFACTURER_ID,
      PAYLOAD_INIT, List.cons_append, List.nil_append, List.length_cons]
    rw [if_neg (by omega)]
    simp

/-! ## Claim theorems -/

/-- C1: the claimed round-trip `decode_ping(ping(v)) = Ok(v)` fails on the
code for every value `v`: the payload that `message_payload` extracts from
the locally built ping frame is the three chunk bytes only (the echo byte
lands in the `MSG_STATUS` slot), so the length check `payload.len() < 4`
always fires and `decode_ping` returns
`Err(MessagePayloadTooShort)` with expected 4, actual 3. -/
theorem decode_ping_ping_always_too_short (value : Nat) :
    decode_ping (ping value) = some (.error (.MessagePayloadTooShort 4 3)) := by
  have hmsg : ping value = create_sysex .Server .LumaPing
      [TEST_ECHO, ((value % 2 ^ 28) >>> 14) % 128, ((value % 2 ^ 28) >>> 7) % 128,
        (value % 2 ^ 28) % 128] := rfl
  simp [decode_ping, hmsg, is_lumatone_create, message_command_id_create,
    message_payload_create]

/-- C2: the claimed framing round-trip
`message_payload(create_sysex(board, command, payload)) = Ok(payload)`
fails on the code for every input: for an empty payload the call errors
("message too short"), and otherwise it returns the payload without its
first byte. -/
theorem message_payload_create_sysex_drops_first_byte (b : BoardIndex)
    (c : CommandId) (data : List Nat) :
    message_payload (create_sysex b c data)
      = some (if data = [] then
            .error "message too short, unable to extract payload"
          else .ok (data.drop 1)) :=
  message_payload_create b c data

/-- C3: `strip_sysex_markers` does not return on every input: on the
single-byte input `[0xF7]` (a lone END marker) the Rust code underflows
`end -= 1` on `end == 0` and panics (modelled by `none`) instead of
returning the empty slice. -/
theorem strip_sysex_markers_lone_end_marker_panics :
    strip_sysex_markers [SYSEX_END] = none := by
  rfl

/-- C7: extracting the command id of a locally built frame returns the
command it was built with:
`message_command_id(create_sysex(board, command, payload)) = Ok(command)`. -/
theorem message_command_id_create_sysex_roundtrip (b : BoardIndex)
    (c : CommandId) (data : List Nat) :
    message_command_id (create_sysex b c data) = some (.ok c) :=
  message_command_id_create b c data

/-- C9: the key-color command splits each 8-bit channel into high and low
nibble, producing the six color bytes R-hi, R-lo, G-hi, G-lo, B-hi, B-lo in
that order, each at most 15, with `hi * 16 + lo` recovering the channel;
and concretely the payload extracted from the frame built by
`set_key_light_parameters(board = 1, key = 0, r = 0xFF, g = 0, b = 0)` is
`[0xF, 0xF, 0x0, 0x0, 0x0, 0x0]`. -/
theorem encode_rgb_nibbles (r g b : Nat) (hr : r < 256) (hg : g < 256)
    (hb : b < 256) :
    (∃ rh rl gh gl bh bl,
      encode_rgb r g b = [rh, rl, gh, gl, bh, bl] ∧
      rh ≤ 15 ∧ rl ≤ 15 ∧ gh ≤ 15 ∧ gl ≤ 15 ∧ bh ≤ 15 ∧ bl ≤ 15 ∧
      rh * 16 + rl = r ∧ gh * 16 + gl = g ∧ bh * 16 + bl = b) ∧
    message_payload (set_key_light_parameters .Octave1 0 0xff 0x00 0x00)
      = some (.ok [0xf, 0xf, 0x0, 0x0, 0x0, 0x0]) := by
  constructor
  · refine ⟨r >>> 4, r % 16, g >>> 4, g % 16, b >>> 4, b % 16, rfl, ?_⟩
    simp only [Nat.shiftRight_eq_div_pow]
    norm_num
    omega
  · rfl

/-- C9 witness: the theorem instantiated at `r = 0xFF`, `g = b = 0`. -/
theorem encode_rgb_nibbles_witness :
    (∃ rh rl gh gl bh bl,
      encode_rgb 0xff 0x00 0x00 = [rh, rl, gh, gl, bh, bl] ∧
      rh ≤ 15 ∧ rl ≤ 15 ∧ gh ≤ 15 ∧ gl ≤ 15 ∧ bh ≤ 15 ∧ bl ≤ 15 ∧
      rh * 16 + rl = 0xff ∧ gh * 16 + gl = 0x00 ∧ bh * 16 + bl = 0x00) ∧
    message_payload (set_key_light_parameters .Octave1 0 0xff 0x00 0x00)
      = some (.ok [0xf, 0xf, 0x0, 0x0, 0x0, 0x0]) :=
  encode_rgb_nibbles 0xff 0x00 0x00 (by decide) (by decide) (by decide)

/-- C10: `save_program(p)` returns the input-validation error exactly when
`p > 9`; for `p ≤ 9` it returns a frame whose command-id byte (offset 5) is
the save-program code, whose trailing byte is the END marker, and whose
data bytes between the command id and the end marker are exactly `[p]`. -/
theorem save_program_preset_range (p : Nat) (hp : p < 256) :
    (9 < p → save_program p
        = .error (.InvalidCommandInput .SaveProgram
            "invalid input: max preset number is 9")) ∧
    (p ≤ 9 → ∃ frame, save_program p = .ok frame ∧
        frame.getD 5 0 = CommandId.toByte .SaveProgram ∧
        (frame.drop 6).dropLast = [p] ∧
        frame.getLast? = some SYSEX_END) := by
  constructor
  · intro h
    simp [save_program, h]
  · intro h
    refine ⟨create_sysex .Server .SaveProgram [p], ?_, rfl, rfl, rfl⟩
    rw [save_program, if_neg (by omega)]

/-- C10 witness: the theorem instantiated at `p = 9`. -/
theorem save_program_preset_range_witness :
    (9 < 9 → save_program 9
        = .error (.InvalidCommandInput .SaveProgram
            "invalid input: max preset number is 9")) ∧
    (9 ≤ 9 → ∃ frame, save_program 9 = .ok frame ∧
        frame.getD 5 0 = CommandId.toByte .SaveProgram ∧
        (frame.drop 6).dropLast = [9] ∧
        frame.getLast? = some SYSEX_END) :=
  save_program_preset_range 9 (by decide)

/-! ## Driver state machine lemmas -/

/-- One step of `State::next` preserves the reachability invariant: the
queue of a `ProcessingQueue` state is non-empty and the state is never
`DeviceBusy`; under that invariant the step never panics. -/
theorem next_preserves_inv (s : State) (a : Action)
    (h1 : s.processingQueueNonempty = true) (h2 : s.isDeviceBusy = false) :
    ∃ t, s.next a = some t ∧ t.processingQueueNonempty = true
      ∧ t.isDeviceBusy = false := by
  cases a with
  | SubmitCommand m =>
    cases s <;>
      simp_all [State.next, State.processingQueueNonempty, State.isDeviceBusy]
  | MessageSent m =>
    cases s with
    | ProcessingQueue q =>
      cases q with
      | nil => simp [State.processingQueueNonempty] at h1
      | cons x xs =>
        exact ⟨.AwaitingResponse xs m, rfl, rfl, rfl⟩
    | Idle => exact ⟨_, rfl, rfl, rfl⟩
    | AwaitingResponse q sent => exact ⟨_, rfl, rfl, rfl⟩
    | DeviceBusy q r => simp [State.isDeviceBusy] at h2
    | Failed err => exact ⟨_, rfl, rfl, rfl⟩
  | MessageReceived m =>
    cases s with
    | AwaitingResponse q sent =>
      cases q with
      | nil => exact ⟨.Idle, rfl, rfl, rfl⟩
      | cons x xs => exact ⟨.ProcessingQueue (x :: xs), rfl, rfl, rfl⟩
    | Idle => exact ⟨_, rfl, rfl, rfl⟩
    | ProcessingQueue q => exact ⟨_, rfl, h1, rfl⟩
    | DeviceBusy q r => simp [State.isDeviceBusy] at h2
    | Failed err => exact ⟨_, rfl, rfl, rfl⟩
  | ResponseTimedOut =>
    cases s with
    | AwaitingResponse q sent =>
      cases q with
      | nil => exact ⟨.Idle, rfl, rfl, rfl⟩
      | cons x xs => exact ⟨.ProcessingQueue (x :: xs), rfl, rfl, rfl⟩
    | Idle => exact ⟨_, rfl, rfl, rfl⟩
    | ProcessingQueue q => exact ⟨_, rfl, h1, rfl⟩
    | DeviceBusy q r => simp [State.isDeviceBusy] at h2
    | Failed err => exact ⟨_, rfl, rfl, rfl⟩
  | ReadyToRetry =>
    cases s with
    | DeviceBusy q r => simp [State.isDeviceBusy] at h2
    | Idle => exact ⟨_, rfl, rfl, rfl⟩
    | ProcessingQueue q => exact ⟨_, rfl, h1, rfl⟩
    | AwaitingResponse q sent => exact ⟨_, rfl, rfl, rfl⟩
    | Failed err => exact ⟨_, rfl, rfl, rfl⟩

/-- Running any action list from a state satisfying the invariant never
panics and ends in a state satisfying the invariant. -/
theorem runFrom_inv (acts : List Action) : ∀ s : State,
    s.processingQueueNonempty = true → s.isDeviceBusy = false →
    ∃ t, State.runFrom s acts = some t ∧ t.processingQueueNonempty = true
      ∧ t.isDeviceBusy = false := by
  induction acts with
  | nil => exact fun s h1 h2 => ⟨s, rfl, h1, h2⟩
  | cons a rest ih =>
    intro s h1 h2
    obtain ⟨t, ht, ht1, ht2⟩ := next_preserves_inv s a h1 h2
    have hstep : State.runFrom s (a :: rest) = State.runFrom t rest := by
      simp [State.runFrom, ht]
    rw [hstep]
    exact ih t ht1 ht2

/-- C4: every state reachable from `Idle` by a finite action sequence has a
non-empty queue whenever it is `ProcessingQueue`, and `State::enter` does
not panic on it (its read of `send_queue[0]` succeeds). -/
theorem reachable_processing_queue_nonempty (acts : List Action) :
    ∃ s, runActions acts = some s ∧ s.processingQueueNonempty = true
      ∧ s.enter.isSome = true := by
  obtain ⟨s, hs, h1, h2⟩ := runFrom_inv acts .Idle rfl rfl
  refine ⟨s, hs, h1, ?_⟩
  cases s with
  | ProcessingQueue q =>
    cases q with
    | nil => simp [State.processingQueueNonempty] at h1
    | cons x xs => rfl
  | Idle => rfl
  | AwaitingResponse q sent => rfl
  | DeviceBusy q r => rfl
  | Failed err => rfl

/-- C5: for `MessageReceived`, `ResponseTimedOut` and `ReadyToRetry`,
applying `State::next` in a state with no matching transition-table row
returns the state unchanged (it does not move to `Failed`); and whenever a
step of a non-`Failed` state produces `Failed(InvalidStateTransition)`, the
pair was genuinely unmatched: a `SubmitCommand` in `ProcessingQueue`, or a
`MessageSent` outside `ProcessingQueue`. -/
theorem next_unmatched_pairs (s : State) (m : EncodedSysex) :
    ((∀ q sent, s ≠ .AwaitingResponse q sent) →
        s.next (.MessageReceived m) = some s) ∧
    ((∀ q sent, s ≠ .AwaitingResponse q sent) →
        s.next .ResponseTimedOut = some s) ∧
    ((∀ q r, s ≠ .DeviceBusy q r) → s.next .ReadyToRetry = some s) ∧
    (∀ a e, (∀ err, s ≠ .Failed err) →
        s.next a = some (.Failed (.InvalidStateTransition e)) →
        ((∃ msg, a = .SubmitCommand msg) ∧ ∃ q, s = .ProcessingQueue q) ∨
        ((∃ msg, a = .MessageSent msg) ∧ ∀ q, s ≠ .ProcessingQueue q)) := by
  refine ⟨?_, ?_, ?_, ?_⟩
  · intro h
    cases s with
    | AwaitingResponse q sent => exact absurd rfl (h q sent)
    | _ => rfl
  · intro h
    cases s with
    | AwaitingResponse q sent => exact absurd rfl (h q sent)
    | _ => rfl
  · intro h
    cases s with
    | DeviceBusy q r => exact absurd rfl (h q r)
    | _ => rfl
  · intro a e hnf hnext
    cases a with
    | SubmitCommand msg =>
      cases s with
      | ProcessingQueue q => exact Or.inl ⟨⟨msg, rfl⟩, q, rfl⟩
      | Failed err => exact absurd rfl (hnf err)
      | Idle => simp [State.next] at hnext
      | AwaitingResponse q sent => simp [State.next] at hnext
      | DeviceBusy q r => simp [State.next] at hnext
    | MessageSent msg =>
      cases s with
      | ProcessingQueue q =>
        cases q with
        | nil => simp [State.next] at hnext
        | cons x xs => simp [State.next] at hnext
      | Failed err => exact absurd rfl (hnf err)
      | Idle => exact Or.inr ⟨⟨msg, rfl⟩, fun q h => State.noConfusion h⟩
      | AwaitingResponse q sent =>
        exact Or.inr ⟨⟨msg, rfl⟩, fun q' h => State.noConfusion h⟩
      | DeviceBusy q r =>
        exact Or.inr ⟨⟨msg, rfl⟩, fun q' h => State.noConfusion h⟩
    | MessageReceived msg =>
      cases s with
      | AwaitingResponse q sent =>
        cases q with
        | nil => simp [State.next] at hnext
        | cons x xs => simp [State.next] at hnext
      | Failed err => exact absurd rfl (hnf err)
      | Idle => simp [State.next] at hnext
      | ProcessingQueue q => simp [State.next] at hnext
      | DeviceBusy q r => simp [State.next] at hnext
    | ResponseTimedOut =>
      cases s with
      | AwaitingResponse q sent =>
        cases q with
        | nil => simp [State.next] at hnext
        | cons x xs => simp [State.next] at hnext
      | Failed err => exact absurd rfl (hnf err)
      | Idle => simp [State.next] at hnext
      | ProcessingQueue q => simp [State.next] at hnext
      | DeviceBusy q r => simp [State.next] at hnext
    | ReadyToRetry =>
      cases s with
      | Failed err => exact absurd rfl (hnf err)
      | Idle => simp [State.next] at hnext
      | ProcessingQueue q => simp [State.next] at hnext
      | AwaitingResponse q sent => simp [State.next] at hnext
      | DeviceBusy q r => simp [State.next] at hnext

/-- C5 witness: `ReadyToRetry` while `Idle` (no matching row) leaves the
state unchanged. -/
theorem next_unmatched_pairs_witness :
    State.next .Idle .ReadyToRetry = some .Idle :=
  (next_unmatched_pairs .Idle []).2.2.1 (fun _ _ h => State.noConfusion h)

/-- C6: no finite action sequence from `Idle` ever reaches a `DeviceBusy`
state: the only transition producing `DeviceBusy` already starts in
`DeviceBusy`, so the retry path is unreachable from the initial state. -/
theorem device_busy_unreachable (acts : List Action) :
    ∃ s, runActions acts = some s ∧ s.isDeviceBusy = false := by
  obtain ⟨s, hs, _, h2⟩ := runFrom_inv acts .Idle rfl rfl
  exact ⟨s, hs, h2⟩

/-- C8: submitting `m1` then `m2` while in `AwaitingResponse` with queue
`q` and in-flight frame `sent` appends both at the tail in arrival order
and leaves the in-flight frame unchanged: the result is `AwaitingResponse`
with queue `q ++ [m1, m2]` and the same `sent`. -/
theorem submit_commands_fifo (q : List EncodedSysex) (sent m1 m2 : EncodedSysex) :
    ((State.AwaitingResponse q sent).next (.SubmitCommand m1)).bind
        (fun s => s.next (.SubmitCommand m2))
      = some (.AwaitingResponse (q ++ [m1, m2]) sent) := by
  simp [State.next]

end Lumatone
